import Mathlib

/-!
Verification of the BrowserClaw MCP server (`mcp-server/server.py`).

The development shallowly embeds the program: JSON values are an inductive
type, Python dict operations become association-list operations, Python
exceptions become `Except` errors, and the wall clock (`time.time()`,
a Python float) is modelled as a rational number passed explicitly to the
cache operations.  The bridge's HTTP behaviour is an explicit parameter
(`HttpOutcome`): a response with a status code, an optional parsed JSON
body (`none` models a body that is not valid JSON, so that `resp.json()`
raises), and the raw text body — or a connection-level failure.
-/

set_option autoImplicit false

/-- JSON values.  Python `json` numbers are modelled as integers (the
program never computes with them); objects are ordered association lists,
matching Python dict insertion order. -/
inductive Json where
  | null : Json
  | bool : Bool → Json
  | num : Int → Json
  | str : String → Json
  | arr : List Json → Json
  | obj : List (String × Json) → Json

/-- Python truthiness of a JSON value, as used by `if cache._tools:`
(server.py line 174). -/
def Json.truthy : Json → Bool
  | .null => false
  | .bool b => b
  | .num n => decide (n ≠ 0)
  | .str s => decide (s ≠ "")
  | .arr [] => false
  | .arr (_ :: _) => true
  | .obj [] => false
  | .obj (_ :: _) => true

/-- Python exceptions relevant to the program: `httpx.HTTPStatusError`
(which carries `e.response.status_code` and `e.response.text`, used at
server.py line 186) and every other exception, carried as its message. -/
inductive PyErr where
  | httpStatusError : Nat → String → PyErr
  | other : String → PyErr

/-- Python `t[k]` on a JSON value: `KeyError` when the key is absent from a
dict, `TypeError` when the value is not a dict (server.py line 196). -/
def pyGetItem (t : Json) (k : String) : Except PyErr Json :=
  match t with
  | .obj fs =>
      match fs.lookup k with
      | some v => .ok v
      | none => .error (.other ("KeyError: " ++ k))
  | _ => .error (.other "TypeError: not subscriptable")

/-- Python `t.get(k, d)` on a JSON value: the stored value when the key is
present, the default `d` otherwise; `AttributeError` when `t` is not a dict
(server.py lines 197-198). -/
def pyDictGetD (t : Json) (k : String) (d : Json) : Except PyErr Json :=
  match t with
  | .obj fs => .ok ((fs.lookup k).getD d)
  | _ => .error (.other "AttributeError: get")

/-- JSON string escaping for serialization (quote, backslash and the common
control characters; other characters pass through unescaped, matching
`ensure_ascii=False`). -/
def escapeJsonChar (c : Char) : String :=
  if c = '"' then "\\\""
  else if c = '\\' then "\\\\"
  else if c = '\n' then "\\n"
  else if c = '\t' then "\\t"
  else if c = '\r' then "\\r"
  else String.singleton c

/-- Escape a string for JSON output. -/
def escapeJson (s : String) : String :=
  String.join (s.toList.map escapeJsonChar)

/-- Model of `json.dumps(v, indent=2, ensure_ascii=False)` (server.py
line 183): two-space indentation per nesting level, carried in `ind`. -/
def jsonDumpsAux (ind : String) : Json → String
  | .null => "null"
  | .bool true => "true"
  | .bool false => "false"
  | .num n => toString n
  | .str s => "\"" ++ escapeJson s ++ "\""
  | .arr [] => "[]"
  | .arr (x :: xs) =>
      "[\n" ++
      String.intercalate ",\n"
        (((x :: xs).attach).map
          (fun p => ind ++ "  " ++ jsonDumpsAux (ind ++ "  ") p.1)) ++
      "\n" ++ ind ++ "]"
  | .obj [] => "\x7b\x7d"
  | .obj (f :: fs) =>
      "\x7b\n" ++
      String.intercalate ",\n"
        (((f :: fs).attach).map
          (fun p => ind ++ "  " ++ "\"" ++ escapeJson p.1.1 ++ "\": " ++
            jsonDumpsAux (ind ++ "  ") p.1.2)) ++
      "\n" ++ ind ++ "\x7d"
  termination_by j => sizeOf j
  decreasing_by
  · have h := List.sizeOf_lt_of_mem p.2
    simp only [Json.arr.sizeOf_spec]
    omega
  · have h := List.sizeOf_lt_of_mem p.2
    have h2 : sizeOf p.1.2 < sizeOf p.1 := by
      obtain ⟨⟨a, b⟩, hm⟩ := p
      simp only [Prod.mk.sizeOf_spec]
      omega
    simp only [Json.obj.sizeOf_spec]
    omega

/-- Serialization entry point, at top indentation level. -/
def jsonDumps (v : Json) : String := jsonDumpsAux "" v

/-- The MCP `TextContent` payload: `TextContent(type="text", text=...)`
(server.py lines 184, 186, 188). -/
structure TextContent where
  type : String
  text : String

/-- The MCP `Tool` payload built by `_to_mcp_tools` (server.py
lines 194-199).  Field values are kept as JSON, exactly as the dict
accesses produce them. -/
structure Tool where
  name : Json
  description : Json
  inputSchema : Json

/-- An HTTP response: status code, the parsed JSON body when the body is
valid JSON (`none` makes `resp.json()` raise), and the raw text body. -/
structure HttpResponse where
  status : Nat
  jsonBody : Option Json
  text : String

/-- Outcome of one HTTP request against the bridge: a response, or a
connection-level failure (refused connection, timeout, ...). -/
inductive HttpOutcome where
  | resp : HttpResponse → HttpOutcome
  | connError : String → HttpOutcome

/-- Python `str.rstrip("/")`: remove every trailing `/` character
(server.py line 75). -/
def rstripSlash (s : String) : String :=
  String.mk ((s.data.reverse.dropWhile (fun c => c = '/')).reverse)

/-- The bridge client's connection-configuration state (`BridgeClient`,
server.py lines 71-78); the lazily created HTTP handle is not part of the
functional model. -/
structure BridgeClient where
  base_url : String
  token : String
  timeout : ℚ

/-- `BridgeClient.__init__` (server.py lines 74-78): the base URL is
normalized by stripping trailing slashes. -/
def BridgeClient.init (base_url : String) (token : String) (timeout : ℚ := 30) :
    BridgeClient :=
  ⟨rstripSlash base_url, token, timeout⟩

/-- URL of the health request, `f"{self.base_url}/health"` (server.py
line 93). -/
def BridgeClient.healthUrl (c : BridgeClient) : String :=
  c.base_url ++ "/health"

/-- URL of the list-tools request, `f"{self.base_url}/tools"` (server.py
line 99). -/
def BridgeClient.toolsUrl (c : BridgeClient) : String :=
  c.base_url ++ "/tools"

/-- URL of the tool-call request, `f"{self.base_url}/tool_call"`
(server.py line 107). -/
def BridgeClient.toolCallUrl (c : BridgeClient) : String :=
  c.base_url ++ "/tool_call"

/-- `BridgeClient.list_tools` (server.py lines 97-102) applied to the
outcome of its GET request: `raise_for_status()` turns any non-2xx status
into an `HTTPStatusError`; `resp.json()` raises on an invalid JSON body;
`data.get("tools", [])` defaults to an empty list and raises
`AttributeError` when the body is not a JSON object.  The `tools` field is
returned unvalidated, whatever its shape. -/
def bridgeListTools (o : HttpOutcome) : Except PyErr Json :=
  match o with
  | .connError msg => .error (.other ("ConnectError: " ++ msg))
  | .resp r =>
      if r.status < 200 ∨ 300 ≤ r.status then
        .error (.httpStatusError r.status r.text)
      else
        match r.jsonBody with
        | none => .error (.other "JSONDecodeError")
        | some d =>
            match d with
            | .obj fs => .ok ((fs.lookup "tools").getD (.arr []))
            | _ => .error (.other "AttributeError: get")

/-- `BridgeClient.call_tool` (server.py lines 104-110) applied to the
outcome of its POST request: no `raise_for_status()` is performed, so the
JSON body is returned as-is for every status code; only an invalid JSON
body (`resp.json()`) or a connection failure raises. -/
def bridgeCallTool (o : HttpOutcome) : Except PyErr Json :=
  match o with
  | .connError msg => .error (.other ("ConnectError: " ++ msg))
  | .resp r =>
      match r.jsonBody with
      | some body => .ok body
      | none => .error (.other "JSONDecodeError")

/-- The request body posted by `BridgeClient.call_tool`,
`json={"tool": tool, "args": args}` (server.py line 108). -/
def requestBody (tool : String) (args : Json) : Json :=
  .obj [("tool", .str tool), ("args", args)]

/-- `ToolCache` state (server.py lines 122-128): TTL, the held raw catalog
(`_tools`, initially the empty list), and the timestamp of the last
successful `set` (`_fetched_at`, initially 0). -/
structure ToolCache where
  ttl : ℚ
  tools : Json
  fetchedAt : ℚ

/-- `ToolCache.__init__` (server.py lines 125-128). -/
def ToolCache.init (ttl : ℚ := 300) : ToolCache :=
  ⟨ttl, .arr [], 0⟩

/-- `ToolCache.expired` (server.py lines 130-132):
`(time.time() - self._fetched_at) > self.ttl`, with the current time `now`
passed explicitly. -/
def ToolCache.expired (c : ToolCache) (now : ℚ) : Bool :=
  decide (c.ttl < now - c.fetchedAt)

/-- `ToolCache.get` (server.py lines 134-137): `None` when expired, the
held catalog otherwise. -/
def ToolCache.get (c : ToolCache) (now : ℚ) : Option Json :=
  if c.expired now then none else some c.tools

/-- `ToolCache.set` (server.py lines 139-141): store the catalog and stamp
the current time. -/
def ToolCache.set (c : ToolCache) (tools : Json) (now : ℚ) : ToolCache :=
  ⟨c.ttl, tools, now⟩

/-- `ToolCache.invalidate` (server.py lines 143-144): reset the timestamp
to 0, leaving the held catalog in place. -/
def ToolCache.invalidate (c : ToolCache) : ToolCache :=
  ⟨c.ttl, c.tools, 0⟩

/-- Translation of one raw tool object (body of the loop in
`_to_mcp_tools`, server.py lines 194-199): `t["name"]` is required and
raises when absent; `description` defaults to `""`; `inputSchema` defaults
to the empty-object schema. -/
def toMcpTool (t : Json) : Except PyErr Tool := do
  let n ← pyGetItem t "name"
  let d ← pyDictGetD t "description" (.str "")
  let s ← pyDictGetD t "inputSchema"
            (.obj [("type", .str "object"), ("properties", .obj [])])
  return ⟨n, d, s⟩

/-- `_to_mcp_tools` (server.py lines 191-201) on a raw catalog value of any
shape.  A JSON array is iterated element-wise; the empty dict and the empty
string iterate zero times; a non-empty dict or string yields string
elements on which `t["name"]` raises `TypeError`; other values are not
iterable and the `for` loop itself raises. -/
def toMcpTools (raw : Json) : Except PyErr (List Tool) :=
  match raw with
  | .arr ts => ts.mapM toMcpTool
  | .obj [] => .ok []
  | .str "" => .ok []
  | .obj (_ :: _) => .error (.other "TypeError: not subscriptable")
  | .str _ => .error (.other "TypeError: not subscriptable")
  | _ => .error (.other "TypeError: not iterable")

/-- The fallback taken by the `except` block of the `list_tools` handler
(server.py lines 173-176): return the held raw catalog translated when it
is truthy — a translation failure there propagates — and the empty list
otherwise. -/
def listToolsFallback (c : ToolCache) : Except PyErr (List Tool) × ToolCache :=
  if c.tools.truthy then (toMcpTools c.tools, c) else (.ok [], c)

/-- The `list_tools` handler (server.py lines 160-176), with the current
time and the bridge's HTTP outcome passed explicitly.  An `.error` result
models an exception propagating out of the handler to the channel.  Note
that on the cached path (line 164) translation happens outside any `try`,
and that on the fetch path `cache.set` (line 168) runs before translation
(line 170), so the fallback re-translates the freshly stored catalog. -/
def adapterListTools (c : ToolCache) (now : ℚ) (o : HttpOutcome) :
    Except PyErr (List Tool) × ToolCache :=
  match c.get now with
  | some cached => (toMcpTools cached, c)
  | none =>
      match bridgeListTools o with
      | .ok raw =>
          let c2 := c.set raw now
          match toMcpTools raw with
          | .ok tools => (.ok tools, c2)
          | .error _ => listToolsFallback c2
      | .error _ => listToolsFallback c

/-- The body of the `call_tool` handler (server.py lines 180-188) as a
function of the outcome of `bridge.call_tool`: success is serialized with
`json.dumps(..., indent=2, ensure_ascii=False)`; an `HTTPStatusError` is
rendered as `f"Bridge error: {status_code} {text}"`; every other exception
as `f"Error: {e}"`.  Every branch returns exactly one text item. -/
def callToolHandler (r : Except PyErr Json) : List TextContent :=
  match r with
  | .ok result => [⟨"text", jsonDumps result⟩]
  | .error (.httpStatusError s t) =>
      [⟨"text", "Bridge error: " ++ toString s ++ " " ++ t⟩]
  | .error (.other m) => [⟨"text", "Error: " ++ m⟩]

/-- The `call_tool` handler (server.py lines 179-188) against a bridge
modelled as a function from the posted request body to an HTTP outcome. -/
def adapterCallTool (bridge : Json → HttpOutcome) (name : String)
    (args : Json) : List TextContent :=
  callToolHandler (bridgeCallTool (bridge (requestBody name args)))

/-- A bridge that echoes the posted request body back as a 200 response. -/
def echoBridge (req : Json) : HttpOutcome :=
  .resp ⟨200, some req, jsonDumps req⟩

/-- The built-in configuration defaults (server.py lines 33-39), in their
Python dict insertion order. -/
def configDefaults : List (String × Json) :=
  [("bridge_url", .str "http://localhost:9333"),
   ("bridge_token", .str ""),
   ("tool_cache_ttl_seconds", .num 300),
   ("request_timeout_seconds", .num 30),
   ("log_level", .str "INFO")]

/-- Python `d[k] = v` on a dict: replace the value in place when the key is
present, append the entry otherwise. -/
def dictSet : List (String × Json) → String → Json → List (String × Json)
  | [], k, v => [(k, v)]
  | (k0, v0) :: rest, k, v =>
      if k0 = k then (k, v) :: rest else (k0, v0) :: dictSet rest k v

/-- Python `base.update(upd)` on dicts: entries of `upd` are written into
`base` in order, later occurrences of a key overwriting earlier ones
(server.py line 43). -/
def dictUpdate (base upd : List (String × Json)) : List (String × Json) :=
  upd.foldl (fun acc kv => dictSet acc kv.1 kv.2) base

/-- One environment override step (server.py lines 47-52):
`if os.environ.get(var): defaults[key] = os.environ[var]` — the override
applies only when the variable is present with a non-empty (truthy)
value, and always writes a string. -/
def applyEnvOverride (cfg : List (String × Json)) (env : String → Option String)
    (var : String) (key : String) : List (String × Json) :=
  match env var with
  | some v => if v = "" then cfg else dictSet cfg key (.str v)
  | none => cfg

/-- `_load_config` (server.py lines 31-53) with the file system and the
environment passed explicitly: `file` is the parsed JSON object of
`config.json` when the file exists and parses as a JSON object, `none`
when it is absent or invalid JSON (`FileNotFoundError` and
`JSONDecodeError` are swallowed); `env` is the process environment.
Only `BROWSERCLAW_BRIDGE_URL`, `BROWSERCLAW_BRIDGE_TOKEN` and
`BROWSERCLAW_LOG_LEVEL` are consulted — the TTL and timeout keys have no
environment override in the source. -/
def loadConfig (file : Option (List (String × Json)))
    (env : String → Option String) : List (String × Json) :=
  let d0 := match file with
    | some cfg => dictUpdate configDefaults cfg
    | none => configDefaults
  let d1 := applyEnvOverride d0 env "BROWSERCLAW_BRIDGE_URL" "bridge_url"
  let d2 := applyEnvOverride d1 env "BROWSERCLAW_BRIDGE_TOKEN" "bridge_token"
  applyEnvOverride d2 env "BROWSERCLAW_LOG_LEVEL" "log_level"

/-- Last-occurrence lookup in an association list: the binding a Python
dict built from this entry sequence would hold. -/
def lastLookup (l : List (String × Json)) (k : String) : Option Json :=
  List.lookup k l.reverse

/-- Left-biased choice on optional values (match-based, so that it
unfolds). -/
def optOr (a b : Option Json) : Option Json :=
  match a with
  | some v => some v
  | none => b

/-- The value the spec's merge gives a key from the file layer: the file's
binding when the file is present and binds the key, the supplied default
otherwise. -/
def fileOr (file : Option (List (String × Json))) (k : String) (d : Json) :
    Json :=
  match file with
  | some fs => (lastLookup fs k).getD d
  | none => d

/-- The value the spec's merge gives a key from the environment layer: the
environment variable's value (as a JSON string) when it is set non-empty,
the fallback otherwise. -/
def envOr (env : String → Option String) (var : String) (fallback : Json) :
    Json :=
  match env var with
  | some v => if v = "" then fallback else .str v
  | none => fallback

/-! ## Helper lemmas -/

theorem beq_of_eqString {a b : String} (h : a = b) : (a == b) = true :=
  beq_iff_eq.mpr h

theorem beq_of_neString {a b : String} (h : ¬a = b) : (a == b) = false :=
  beq_eq_false_iff_ne.mpr h

theorem lookup_dictSet (l : List (String × Json)) (k : String) (v : Json)
    (k' : String) :
    List.lookup k' (dictSet l k v) = if k' = k then some v else List.lookup k' l := by
  induction l with
  | nil =>
      by_cases h : k' = k <;>
        simp [dictSet, List.lookup, h, beq_of_eqString, beq_of_neString]
  | cons hd tl ih =>
      obtain ⟨k0, v0⟩ := hd
      simp only [dictSet]
      by_cases h0 : k0 = k
      · simp only [if_pos h0]
        by_cases h : k' = k
        · simp [List.lookup_cons, beq_of_eqString h, h]
        · have hk0 : ¬k' = k0 := fun e => h (e.trans h0)
          simp [List.lookup_cons, beq_of_neString h, beq_of_neString hk0, h]
      · simp only [if_neg h0]
        by_cases h : k' = k0
        · have hk : ¬k' = k := fun e => h0 (h.symm.trans e)
          simp [List.lookup_cons, beq_of_eqString h, hk]
        · simp [List.lookup_cons, beq_of_neString h, ih]

theorem lookup_appended (l1 l2 : List (String × Json)) (k : String) :
    List.lookup k (l1 ++ l2) = optOr (List.lookup k l1) (List.lookup k l2) := by
  induction l1 with
  | nil => simp [optOr]
  | cons hd tl ih =>
      obtain ⟨k0, v0⟩ := hd
      by_cases h : k = k0 <;>
        simp [List.lookup, beq_of_eqString, beq_of_neString, h, optOr, ih]

theorem lookup_dictUpdate (upd : List (String × Json)) :
    ∀ (base : List (String × Json)) (k : String),
      List.lookup k (dictUpdate base upd)
        = optOr (lastLookup upd k) (List.lookup k base) := by
  induction upd with
  | nil => intro base k; simp [dictUpdate, lastLookup, optOr]
  | cons hd tl ih =>
      intro base k
      obtain ⟨k0, v0⟩ := hd
      have step : dictUpdate base ((k0, v0) :: tl) = dictUpdate (dictSet base k0 v0) tl := rfl
      rw [step, ih]
      have hlast : lastLookup ((k0, v0) :: tl) k
          = optOr (lastLookup tl k) (List.lookup k [(k0, v0)]) := by
        simp only [lastLookup, List.reverse_cons]
        exact lookup_appended tl.reverse [(k0, v0)] k
      rw [hlast, lookup_dictSet]
      rcases hl : lastLookup tl k with _ | w
      · by_cases h : k = k0 <;>
          simp [List.lookup_cons, beq_of_eqString, beq_of_neString, h, optOr]
      · simp [optOr]

theorem lookup_applyEnvOverride_ne (cfg : List (String × Json))
    (env : String → Option String) (var key k : String) (h : k ≠ key) :
    List.lookup k (applyEnvOverride cfg env var key) = List.lookup k cfg := by
  unfold applyEnvOverride
  rcases env var with _ | v
  · rfl
  · by_cases hv : v = "" <;> simp [hv, lookup_dictSet, h]

theorem lookup_applyEnvOverride_eq (cfg : List (String × Json))
    (env : String → Option String) (var key : String) (d : Json)
    (h : List.lookup key cfg = some d) :
    List.lookup key (applyEnvOverride cfg env var key) = some (envOr env var d) := by
  unfold applyEnvOverride envOr
  rcases env var with _ | v
  · exact h
  · by_cases hv : v = "" <;> simp [hv, lookup_dictSet, h]

theorem lookup_configLayer0 (file : Option (List (String × Json)))
    (k : String) (d : Json) (h : List.lookup k configDefaults = some d) :
    List.lookup k
        (match file with
          | some cfg => dictUpdate configDefaults cfg
          | none => configDefaults)
      = some (fileOr file k d) := by
  rcases file with _ | cfg
  · simpa [fileOr] using h
  · rw [lookup_dictUpdate, h]
    simp only [fileOr]
    rcases lastLookup cfg k with _ | w <;> simp [optOr]

theorem head_dropWhileSlash_ne (l : List Char) :
    ((l.dropWhile (fun c => c = '/')).head? == some '/') = false := by
  induction l with
  | nil => rfl
  | cons a rest ih =>
      by_cases h : a = '/'
      · simpa [List.dropWhile, h] using ih
      · simp [List.dropWhile, h]

theorem takeWhileSlash_eq_replicate (l : List Char) :
    l.takeWhile (fun c => c = '/')
      = List.replicate (l.takeWhile (fun c => c = '/')).length '/' := by
  apply List.eq_replicate_of_mem
  intro b hb
  have hp := List.mem_takeWhile_imp hb
  simpa using hp

/-! ## Claim theorems -/

/-- C3 (amended): for all TTL values `t` and elapsed times `e` since the
last `set`, `Cache.get()` returns the stored catalog iff `e ≤ t` and
returns nothing iff `e > t`; the exact boundary `e == t` counts as fresh
(the source compares with strict `>`, server.py line 132). -/
theorem cache_ttl_boundary_semantics (ttl s e : ℚ) (tools0 catalog : Json) :
    ((ToolCache.set ⟨ttl, tools0, 0⟩ catalog s).get (s + e) = some catalog ↔ e ≤ ttl) ∧
    ((ToolCache.set ⟨ttl, tools0, 0⟩ catalog s).get (s + e) = none ↔ ttl < e) := by
  have he : s + e - s = e := by ring
  have hg : (ToolCache.set ⟨ttl, tools0, 0⟩ catalog s).get (s + e)
      = if ttl < e then none else some catalog := by
    simp only [ToolCache.get, ToolCache.set, ToolCache.expired, he]
    by_cases h : ttl < e <;> simp [h]
  rw [hg]
  by_cases h : ttl < e
  · simp [h, not_le.mpr h]
  · simp [h, not_lt.mp h]

/-- C3 counterexample: with TTL 5, a catalog stored at time 100 and read at
time 105 — elapsed time exactly equal to the TTL — `get` returns the
stored catalog, not nothing: the boundary counts as fresh, refuting the
claimed convention that it counts as expired. -/
theorem cache_boundary_counterexample :
    (ToolCache.set (ToolCache.init 5)
        (Json.arr [Json.obj [("name", Json.str "x")]]) 100).get 105
      = some (Json.arr [Json.obj [("name", Json.str "x")]]) ∧
    ((ToolCache.set (ToolCache.init 5)
        (Json.arr [Json.obj [("name", Json.str "x")]]) 100).get 105).isSome = true := by
  exact ⟨by with_unfolding_all rfl, by with_unfolding_all rfl⟩

/-- C4 (amended): whenever the current time exceeds the TTL (always true of
real wall-clock times with sane TTLs), `get()` returns nothing after
`invalidate()` — regardless of how recently `set` ran — and also when the
cache was never set; `invalidate` retains the held catalog payload. -/
theorem invalidate_forces_stale (c : ToolCache) (now : ℚ) (h : c.ttl < now) :
    c.invalidate.get now = none ∧ c.invalidate.tools = c.tools ∧
    (ToolCache.init c.ttl).get now = none := by
  refine ⟨?_, rfl, ?_⟩ <;>
    simp [ToolCache.get, ToolCache.invalidate, ToolCache.init, ToolCache.expired, h]

/-- C4 witness: a cache with TTL 300 set at time 900 then invalidated
yields nothing at time 1000 while retaining its catalog, and a never-set
cache yields nothing at time 1000. -/
theorem invalidate_forces_stale_witness :
    ((ToolCache.set (ToolCache.init 300) (Json.arr [Json.null]) 900).invalidate).get 1000 = none ∧
    ((ToolCache.set (ToolCache.init 300) (Json.arr [Json.null]) 900).invalidate).tools
      = (ToolCache.set (ToolCache.init 300) (Json.arr [Json.null]) 900).tools ∧
    (ToolCache.init ((ToolCache.set (ToolCache.init 300) (Json.arr [Json.null]) 900)).ttl).get 1000 = none := by
  exact invalidate_forces_stale
    (ToolCache.set (ToolCache.init 300) (Json.arr [Json.null]) 900) 1000
    (by norm_num [ToolCache.set, ToolCache.init])

/-- C4 counterexample: with TTL 100, a catalog stored at time 50 and
`invalidate()` called, `get()` at time 50 still returns the stored catalog
(50 - 0 = 50 ≤ 100), so invalidation does not force the next `get` to
return nothing for every TTL value and current time. -/
theorem invalidate_fresh_counterexample :
    (((ToolCache.set (ToolCache.init 100) (Json.arr [Json.null]) 50).invalidate).get 50)
      = some (Json.arr [Json.null]) ∧
    ((((ToolCache.set (ToolCache.init 100) (Json.arr [Json.null]) 50).invalidate).get 50)).isSome = true := by
  exact ⟨by with_unfolding_all rfl, by with_unfolding_all rfl⟩

/-- C2: for every bridge behaviour (hence in particular for a 200 response
with valid JSON, a 4xx/5xx response with JSON or text body, and a
connection failure) the call-tool handler returns exactly one text content
item and never raises; and the handler branch for a status-carrying
failure (`except httpx.HTTPStatusError`, server.py lines 185-186) renders
the numeric status code into the returned text. -/
theorem callTool_single_item (bridge : Json → HttpOutcome) (name : String)
    (args : Json) :
    (adapterCallTool bridge name args).length = 1 ∧
    (∀ (r : Except PyErr Json), (callToolHandler r).length = 1) ∧
    (∀ (s : Nat) (t : String),
      callToolHandler (.error (.httpStatusError s t))
        = [⟨"text", "Bridge error: " ++ toString s ++ " " ++ t⟩]) := by
  have hlen : ∀ (r : Except PyErr Json), (callToolHandler r).length = 1 := by
    intro r
    rcases r with e | j
    · rcases e with ⟨s, t⟩ | m <;> rfl
    · rfl
  exact ⟨hlen _, hlen, fun s t => rfl⟩

/-- C7: `BridgeClient.call_tool` returns the bridge's JSON response body
as-is regardless of the HTTP status code (no `raise_for_status`, server.py
lines 104-110), and against an echoing bridge the call-tool handler's
single text item carries exactly the serialization of the posted request
body `\x7b"tool": name, "args": args\x7d` — no silent transformation. -/
theorem callTool_passthrough_echo :
    (∀ (s : Nat) (body : Json) (t : String),
      bridgeCallTool (.resp ⟨s, some body, t⟩) = .ok body) ∧
    (∀ (name : String) (args : Json),
      adapterCallTool echoBridge name args
        = [⟨"text", jsonDumps (requestBody name args)⟩]) ∧
    adapterCallTool echoBridge "x" (Json.obj [("a", Json.num 1)])
      = [⟨"text", jsonDumps (Json.obj [("tool", Json.str "x"),
          ("args", Json.obj [("a", Json.num 1)])])⟩] := by
  exact ⟨fun s body t => rfl, fun name args => rfl, rfl⟩

/-- C8: translating a raw tool object passes the required `name` through,
defaults `description` to the empty string and `inputSchema` to the
empty-object schema when absent; in particular `\x7b"name": "x"\x7d`
translates to the fully defaulted descriptor. -/
theorem translation_rule_and_defaults :
    (∀ (fs : List (String × Json)) (n : Json), fs.lookup "name" = some n →
      toMcpTool (.obj fs) = .ok ⟨n, (fs.lookup "description").getD (.str ""),
        (fs.lookup "inputSchema").getD
          (.obj [("type", .str "object"), ("properties", .obj [])])⟩) ∧
    toMcpTool (.obj [("name", .str "x")])
      = .ok ⟨.str "x", .str "",
          .obj [("type", .str "object"), ("properties", .obj [])]⟩ := by
  constructor
  · intro fs n h
    simp only [toMcpTool, pyGetItem, pyDictGetD, h]
    rfl
  · rfl

/-- C8 witness: the translation rule applied to a concrete raw tool that
carries a name and a description but no schema. -/
theorem translation_rule_witness :
    toMcpTool (.obj [("name", .str "x"), ("description", .str "d")])
      = .ok ⟨.str "x", .str "d",
          .obj [("type", .str "object"), ("properties", .obj [])]⟩ := by
  exact translation_rule_and_defaults.1
    [("name", Json.str "x"), ("description", Json.str "d")] (Json.str "x") rfl

/-- C10: the bridge client strips all trailing `/` characters from the
base URL at construction time — the configured URL is the normalized base
plus some run of trailing slashes, and the normalized base never ends in
`/` — and every request URL is the normalized base, one `/`, and the path
segment. -/
theorem bridge_url_normalization (base token : String) (timeout : ℚ) :
    ((BridgeClient.init base token timeout).base_url = rstripSlash base) ∧
    (∃ n, base.data
        = (BridgeClient.init base token timeout).base_url.data
          ++ List.replicate n '/') ∧
    (((BridgeClient.init base token timeout).base_url.data.getLast? == some '/')
        = false) ∧
    ((BridgeClient.init base token timeout).healthUrl
        = rstripSlash base ++ "/health") ∧
    ((BridgeClient.init base token timeout).toolsUrl
        = rstripSlash base ++ "/tools") ∧
    ((BridgeClient.init base token timeout).toolCallUrl
        = rstripSlash base ++ "/tool_call") := by
  refine ⟨rfl, ?_, ?_, rfl, rfl, rfl⟩
  · refine ⟨(base.data.reverse.takeWhile (fun c => c = '/')).length, ?_⟩
    show base.data
        = (base.data.reverse.dropWhile (fun c => c = '/')).reverse
          ++ List.replicate
              (base.data.reverse.takeWhile (fun c => c = '/')).length '/'
    have hsplit := List.takeWhile_append_dropWhile (p := fun c => c = '/')
      (l := base.data.reverse)
    have hrep : (base.data.reverse.takeWhile (fun c => c = '/')).reverse
        = List.replicate
            (base.data.reverse.takeWhile (fun c => c = '/')).length '/' := by
      rw [takeWhileSlash_eq_replicate base.data.reverse]
      rw [List.reverse_replicate, List.length_replicate]
    calc base.data = base.data.reverse.reverse := (List.reverse_reverse _).symm
      _ = (base.data.reverse.takeWhile (fun c => c = '/')
            ++ base.data.reverse.dropWhile (fun c => c = '/')).reverse := by
            rw [hsplit]
      _ = (base.data.reverse.dropWhile (fun c => c = '/')).reverse
            ++ (base.data.reverse.takeWhile (fun c => c = '/')).reverse := by
            rw [List.reverse_append]
      _ = (base.data.reverse.dropWhile (fun c => c = '/')).reverse
            ++ List.replicate
                (base.data.reverse.takeWhile (fun c => c = '/')).length '/' := by
            rw [hrep]
  · simp only [BridgeClient.init, rstripSlash]
    rw [List.getLast?_reverse]
    exact head_dropWhileSlash_ne base.data.reverse

/-- C1: with an empty cache and a reachable bridge whose catalog contains a
malformed tool object (no `name` field), the list-tools handler raises: the
`KeyError` from `t["name"]` is caught once (server.py line 171) but the
fallback re-translates the just-stored malformed catalog outside any `try`
(line 175), so the exception propagates to the caller — the handler does
not return a sequence. -/
theorem listTools_malformed_tool_raises :
    (adapterListTools (ToolCache.init 300) 1000
        (HttpOutcome.resp ⟨200,
          some (Json.obj [("tools", Json.arr [Json.obj []])]), ""⟩)).1
      = .error (.other "KeyError: name") := by
  with_unfolding_all rfl

/-- C5 counterexample: a fresh cache holding the empty catalog (TTL 300,
set at time 5, read at time 10) short-circuits the handler — `cached is
not None` is true for the empty list — so the bridge is never consulted
and the handler returns the empty translation with the cache unchanged,
even though the bridge would have supplied a one-tool catalog.  The claim
says an empty cached catalog triggers the bridge call and its result is
stored and returned. -/
theorem listTools_empty_fresh_counterexample :
    (adapterListTools ⟨300, Json.arr [], 5⟩ 10
        (HttpOutcome.resp ⟨200, some (Json.obj [("tools",
          Json.arr [Json.obj [("name", Json.str "x")]])]), ""⟩)).1 = .ok [] ∧
    (adapterListTools ⟨300, Json.arr [], 5⟩ 10
        (HttpOutcome.resp ⟨200, some (Json.obj [("tools",
          Json.arr [Json.obj [("name", Json.str "x")]])]), ""⟩)).2
      = ⟨300, Json.arr [], 5⟩ ∧
    bridgeListTools (HttpOutcome.resp ⟨200, some (Json.obj [("tools",
        Json.arr [Json.obj [("name", Json.str "x")]])]), ""⟩)
      = .ok (Json.arr [Json.obj [("name", Json.str "x")]]) ∧
    toMcpTools (Json.arr [Json.obj [("name", Json.str "x")]])
      = .ok [⟨Json.str "x", Json.str "",
          Json.obj [("type", Json.str "object"), ("properties", Json.obj [])]⟩] := by
  exact ⟨by with_unfolding_all rfl, by with_unfolding_all rfl,
    by with_unfolding_all rfl, by with_unfolding_all rfl⟩

/-- C5 (amended): when `Cache.get()` yields a catalog — fresh, whether
empty or not, since the handler tests `cached is not None` (server.py
line 163) rather than non-emptiness — the handler translates and returns
it with no bridge call; when `get()` yields nothing, the handler calls the
bridge, stores the raw result in the cache on success, and returns the
translated result. -/
theorem listTools_cache_policy (c : ToolCache) (now : ℚ) (o : HttpOutcome) :
    (∀ cached, c.get now = some cached →
      adapterListTools c now o = (toMcpTools cached, c)) ∧
    (c.get now = none → ∀ raw ts, bridgeListTools o = .ok raw →
      toMcpTools raw = .ok ts →
      adapterListTools c now o = (.ok ts, c.set raw now)) := by
  constructor
  · intro cached h
    simp [adapterListTools, h]
  · intro h raw ts hb ht
    simp [adapterListTools, h, hb, ht]

/-- C5 witness: a fresh empty catalog is returned with no bridge effect
even against an unreachable bridge, and a stale cache triggers the bridge
path, storing and returning the fetched catalog. -/
theorem listTools_cache_policy_witness :
    adapterListTools ⟨300, Json.arr [], 5⟩ 10 (HttpOutcome.connError "refused")
      = (.ok [], ⟨300, Json.arr [], 5⟩) ∧
    adapterListTools (ToolCache.init 300) 1000
        (HttpOutcome.resp ⟨200, some (Json.obj [("tools",
          Json.arr [Json.obj [("name", Json.str "x")]])]), ""⟩)
      = (.ok [⟨Json.str "x", Json.str "",
            Json.obj [("type", Json.str "object"), ("properties", Json.obj [])]⟩],
         (ToolCache.init 300).set
           (Json.arr [Json.obj [("name", Json.str "x")]]) 1000) := by
  constructor
  · exact (listTools_cache_policy ⟨300, Json.arr [], 5⟩ 10
      (HttpOutcome.connError "refused")).1 (Json.arr [])
      (by with_unfolding_all rfl)
  · exact (listTools_cache_policy (ToolCache.init 300) 1000
      (HttpOutcome.resp ⟨200, some (Json.obj [("tools",
        Json.arr [Json.obj [("name", Json.str "x")]])]), ""⟩)).2
      (by with_unfolding_all rfl)
      (Json.arr [Json.obj [("name", Json.str "x")]])
      [⟨Json.str "x", Json.str "",
        Json.obj [("type", Json.str "object"), ("properties", Json.obj [])]⟩]
      (by with_unfolding_all rfl) (by with_unfolding_all rfl)

/-- C6: with a stale cache (`get` yields nothing), a failing bridge call,
and a held catalog whose translation succeeds as `ts` — which covers both
a previously stored catalog and the never-stored initial empty catalog,
where `ts = []` — the list-tools handler returns exactly the held catalog
translated, leaving the cache unchanged. -/
theorem listTools_stale_fallback (c : ToolCache) (now : ℚ) (o : HttpOutcome)
    (ts : List Tool) (e : PyErr)
    (hstale : c.get now = none)
    (hfail : bridgeListTools o = .error e)
    (htrans : toMcpTools c.tools = .ok ts) :
    adapterListTools c now o = (.ok ts, c) := by
  simp only [adapterListTools, hstale, hfail, listToolsFallback]
  by_cases htr : c.tools.truthy
  · simp [htr, htrans]
  · have hts : ts = [] := by
      rcases hc : c.tools with _ | b | n | s | xs | fs <;> rw [hc] at htrans htr
      · simp [toMcpTools] at htrans
      · simp [toMcpTools] at htrans
      · simp [toMcpTools] at htrans
      · have hs : s = "" := by
          by_contra hne
          exact htr (by simp [Json.truthy, hne])
        rw [hs] at htrans
        have h0 : toMcpTools (Json.str "") = .ok ([] : List Tool) := rfl
        rw [h0] at htrans
        exact (Except.ok.inj htrans).symm
      · rcases xs with _ | ⟨hd, tl⟩
        · have h0 : toMcpTools (Json.arr []) = .ok ([] : List Tool) := rfl
          rw [h0] at htrans
          exact (Except.ok.inj htrans).symm
        · exact absurd rfl htr
      · rcases fs with _ | ⟨hd, tl⟩
        · have h0 : toMcpTools (Json.obj []) = .ok ([] : List Tool) := rfl
          rw [h0] at htrans
          exact (Except.ok.inj htrans).symm
        · exact absurd rfl htr
    simp [htr, hts]

/-- C6 witness: a stale one-tool catalog (stored at time 0, TTL 300, read
at time 1000) is returned translated when the bridge connection fails, and
the never-stored cache yields the empty sequence on the same failure. -/
theorem listTools_stale_fallback_witness :
    adapterListTools ⟨300, Json.arr [Json.obj [("name", Json.str "x")]], 0⟩ 1000
        (HttpOutcome.connError "refused")
      = (.ok [⟨Json.str "x", Json.str "",
            Json.obj [("type", Json.str "object"), ("properties", Json.obj [])]⟩],
         ⟨300, Json.arr [Json.obj [("name", Json.str "x")]], 0⟩) ∧
    adapterListTools (ToolCache.init 300) 1000 (HttpOutcome.connError "refused")
      = (.ok [], ToolCache.init 300) := by
  constructor
  · exact listTools_stale_fallback
      ⟨300, Json.arr [Json.obj [("name", Json.str "x")]], 0⟩ 1000
      (HttpOutcome.connError "refused")
      [⟨Json.str "x", Json.str "",
        Json.obj [("type", Json.str "object"), ("properties", Json.obj [])]⟩]
      (.other ("ConnectError: " ++ "refused"))
      (by with_unfolding_all rfl) (by with_unfolding_all rfl)
      (by with_unfolding_all rfl)
  · exact listTools_stale_fallback (ToolCache.init 300) 1000
      (HttpOutcome.connError "refused") []
      (.other ("ConnectError: " ++ "refused"))
      (by with_unfolding_all rfl) (by with_unfolding_all rfl)
      (by with_unfolding_all rfl)

/-- C9 counterexample: with no config file and an environment in which
every variable — whatever its name — is set to the non-empty string `"7"`,
the effective TTL and timeout are still the built-in defaults 300 and 30:
the source consults no environment variable for these two keys, so "the
environment-variable override when one is set" does not hold for them.
The `bridge_url` conjunct shows the override layer is live for the keys
that do have one. -/
theorem config_env_ttl_counterexample :
    List.lookup "tool_cache_ttl_seconds" (loadConfig none (fun _ => some "7"))
      = some (Json.num 300) ∧
    List.lookup "request_timeout_seconds" (loadConfig none (fun _ => some "7"))
      = some (Json.num 30) ∧
    List.lookup "bridge_url" (loadConfig none (fun _ => some "7"))
      = some (Json.str "7") := by
  exact ⟨by with_unfolding_all rfl, by with_unfolding_all rfl,
    by with_unfolding_all rfl⟩

/-- C9 (amended): for `bridge_url`, `bridge_token` and `log_level` the
effective value is the environment-variable override (`BROWSERCLAW_*`, when
set to a non-empty string), otherwise the file value when present,
otherwise the built-in default; for `tool_cache_ttl_seconds` and
`request_timeout_seconds` there is no environment override — the effective
value is the file value when present, otherwise the default (300, resp.
30). -/
theorem config_precedence (file : Option (List (String × Json)))
    (env : String → Option String) :
    List.lookup "bridge_url" (loadConfig file env)
      = some (envOr env "BROWSERCLAW_BRIDGE_URL"
          (fileOr file "bridge_url" (.str "http://localhost:9333"))) ∧
    List.lookup "bridge_token" (loadConfig file env)
      = some (envOr env "BROWSERCLAW_BRIDGE_TOKEN"
          (fileOr file "bridge_token" (.str ""))) ∧
    List.lookup "log_level" (loadConfig file env)
      = some (envOr env "BROWSERCLAW_LOG_LEVEL"
          (fileOr file "log_level" (.str "INFO"))) ∧
    List.lookup "tool_cache_ttl_seconds" (loadConfig file env)
      = some (fileOr file "tool_cache_ttl_seconds" (.num 300)) ∧
    List.lookup "request_timeout_seconds" (loadConfig file env)
      = some (fileOr file "request_timeout_seconds" (.num 30)) := by
  have hL : loadConfig file env
      = applyEnvOverride
          (applyEnvOverride
            (applyEnvOverride
              (match file with
                | some cfg => dictUpdate configDefaults cfg
                | none => configDefaults)
              env "BROWSERCLAW_BRIDGE_URL" "bridge_url")
            env "BROWSERCLAW_BRIDGE_TOKEN" "bridge_token")
          env "BROWSERCLAW_LOG_LEVEL" "log_level" := rfl
  refine ⟨?_, ?_, ?_, ?_, ?_⟩
  · rw [hL, lookup_applyEnvOverride_ne _ env _ _ _ (by decide),
      lookup_applyEnvOverride_ne _ env _ _ _ (by decide)]
    exact lookup_applyEnvOverride_eq _ env _ _ _
      (lookup_configLayer0 file _ _ (by with_unfolding_all rfl))
  · rw [hL, lookup_applyEnvOverride_ne _ env _ _ _ (by decide)]
    exact lookup_applyEnvOverride_eq _ env _ _ _
      (by rw [lookup_applyEnvOverride_ne _ env _ _ _ (by decide)]
          exact lookup_configLayer0 file _ _ (by with_unfolding_all rfl))
  · rw [hL]
    exact lookup_applyEnvOverride_eq _ env _ _ _
      (by rw [lookup_applyEnvOverride_ne _ env _ _ _ (by decide),
            lookup_applyEnvOverride_ne _ env _ _ _ (by decide)]
          exact lookup_configLayer0 file _ _ (by with_unfolding_all rfl))
  · rw [hL, lookup_applyEnvOverride_ne _ env _ _ _ (by decide),
      lookup_applyEnvOverride_ne _ env _ _ _ (by decide),
      lookup_applyEnvOverride_ne _ env _ _ _ (by decide)]
    exact lookup_configLayer0 file _ _ (by with_unfolding_all rfl)
  · rw [hL, lookup_applyEnvOverride_ne _ env _ _ _ (by decide),
      lookup_applyEnvOverride_ne _ env _ _ _ (by decide),
      lookup_applyEnvOverride_ne _ env _ _ _ (by decide)]
    exact lookup_configLayer0 file _ _ (by with_unfolding_all rfl)
